import Mathlib

/-!
Shallow embedding of `src/csv_to_xlsx_process.ts`, an ExcelScript macro that
post-processes one worksheet of vulnerability-scan findings: it hides columns,
applies an autofilter, sorts, removes duplicate rows, normalizes row heights,
restricts the filter to an allow-list of categories, and autofits columns.

The worksheet is the single mutable object; every operation of the script is a
thin call into the spreadsheet host.  We model the worksheet state explicitly
and each script function as a state transformer returning `Except String
Worksheet` (a thrown error becomes `.error msg`).  The host primitives the
script calls (range sort, `removeDuplicates`, values filter, row-height set,
autofit) are modelled by their documented effect on that state.
-/

namespace CsvToXlsxProcess

/--
Model of the worksheet state.

* `colOff`, `rowOff`: column/row index of the top-left corner of the used range
  (`getUsedRange().getColumnIndex()` / `.getRowIndex()`).
* `rows`: the value rows of the used range, in order; each inner list is
  indexed by ABSOLUTE column index (cells left of `colOff` are empty padding).
  Row `i` of the list sits at physical sheet row `rowOff + i`.
* `rowHeights`: height of each physical sheet row (a row attribute: sorting or
  removing values does not move heights).
* `visible`: visibility of each physical sheet row (a row attribute toggled by
  the autofilter).
* `hiddenCols`: per-column hidden flag set by `setColumnHidden`.
* `colWidths`: per-column width, written by autofit.
* `autoFilter`: the column index of the range the single autofilter is applied
  to, when one is applied (`getAutoFilter().getRange().getColumnIndex()`).
-/
structure Worksheet where
  colOff : Nat
  rowOff : Nat
  rows : List (List String)
  rowHeights : Nat → Rat
  visible : Nat → Bool
  hiddenCols : Nat → Bool
  colWidths : Nat → Nat
  autoFilter : Option Nat

/-- Cell value of a row at an absolute column index; empty cells read `""`,
matching the host's behavior for out-of-range reads. -/
def cellAt (row : List String) (c : Int) : String :=
  if c < 0 then "" else row.getD c.toNat ""

/-- Interpreter for the column-range strings the script passes to
`getRange`, e.g. `"A:C"` or `"E:E"`: a pair of single uppercase letters
separated by a colon, giving the inclusive 0-based column span. -/
def parseColRange (s : String) : Option (Nat × Nat) :=
  match s.toList with
  | [a, sep, b] =>
    if sep = ':' ∧ 'A' ≤ a ∧ a ≤ 'Z' ∧ 'A' ≤ b ∧ b ≤ 'Z' then
      some (a.toNat - 65, b.toNat - 65)
    else none
  | _ => none

/-- Embedding of `hideColumns` (src lines 88-91): marks the columns of the given range
hidden via `setColumnHidden(true)`.  A malformed range string is a host
error. -/
def hideColumns (worksheet : Worksheet) (columnsTobeHidden : String) :
    Except String Worksheet :=
  match parseColRange columnsTobeHidden with
  | none => .error ("invalid range " ++ columnsTobeHidden)
  | some (a, b) =>
    .ok { worksheet with
          hiddenCols := fun c =>
            if a ≤ c ∧ c ≤ b then true else worksheet.hiddenCols c }

/-- Embedding of `filterColumns` (src lines 98-101): applies the worksheet's single
autofilter to the given column range (`getAutoFilter().apply(range)`), making
that range the current filter range. -/
def filterColumns (worksheet : Worksheet) (columnsTobeFiltered : String) :
    Except String Worksheet :=
  match parseColRange columnsTobeFiltered with
  | none => .error ("invalid range " ++ columnsTobeFiltered)
  | some (a, _) =>
    .ok { worksheet with autoFilter := some a }

/-- Case-insensitive row comparison used to model the host sort with
`matchCase: false`: compares the lower-cased cell values at absolute column
`t`. -/
def rowLe (t : Int) (r₁ r₂ : List String) : Prop :=
  (cellAt r₁ t).toLower ≤ (cellAt r₂ t).toLower

instance (t : Int) : DecidableRel (rowLe t) := fun r₁ r₂ =>
  inferInstanceAs (Decidable ((cellAt r₁ t).toLower ≤ (cellAt r₂ t).toLower))

/-- Embedding of `sort` (src lines 108-123): throws a `RangeError` if `columnIndex < 0`;
otherwise takes the filterable range (`getAutoFilter().getRange()`), converts
the absolute index to a range-relative key by subtracting the range's column
offset, and sorts the range ascending by that key, case-insensitively, with
the first row treated as a header (kept in place).  The host sort reorders the
value rows below the header; the key column in absolute coordinates is the
range offset plus the relative key. -/
def sort (worksheet : Worksheet) (columnIndex : Int) : Except String Worksheet :=
  if columnIndex < 0 then
    .error ("columnIndex = " ++ toString columnIndex ++
      " cannot be less than 0.")
  else
    match worksheet.autoFilter with
    | none => .error "no autofilter range"
    | some fcol =>
      let key : Int := columnIndex - (fcol : Int)
      let target : Int := (fcol : Int) + key
      .ok { worksheet with
            rows :=
              match worksheet.rows with
              | [] => []
              | header :: dataRows =>
                header :: List.insertionSort (rowLe target) dataRows }

/-- Embedding of `onlyShowFiltered` (src lines 130-143): re-applies the autofilter to its
current range with a values criterion on the HARD-CODED relative column `0` of
that range (the `columnIndex` argument is only logged).  Each data row of the
filter range becomes visible iff its value in that column is in
`valuesTobeShown`; no row is deleted. -/
def onlyShowFiltered (worksheet : Worksheet) (columnIndex : Int)
    (valuesTobeShown : List String) : Except String Worksheet :=
  match worksheet.autoFilter with
  | none => .error "no autofilter range"
  | some fcol =>
    let _ := columnIndex
    .ok { worksheet with
          visible := fun r =>
            if worksheet.rowOff + 1 ≤ r ∧
                r < worksheet.rowOff + worksheet.rows.length then
              decide
                (cellAt (worksheet.rows.getD (r - worksheet.rowOff) [])
                  (fcol : Int) ∈ valuesTobeShown)
            else worksheet.visible r }

/-- First-occurrence deduplication by key, the documented effect of the host's
`Range.removeDuplicates`: keeps each row whose key was not seen before, in
order; later rows with an already-seen key are removed. -/
def dedupByAux (key : List String → List String) (seen : List (List String)) :
    List (List String) → List (List String)
  | [] => []
  | r :: rs =>
    if key r ∈ seen then dedupByAux key seen rs
    else r :: dedupByAux key (key r :: seen) rs

/-- Embedding of `removeDuplicates` (src lines 150-160): first rewrites the caller's
`consideredColumns` array IN PLACE, subtracting the used range's column offset
from each entry, then calls the host `removeDuplicates` on the used range with
those range-relative columns and `includesHeader: true` (row 1 excluded and
kept).  The in-place mutation is modelled by returning the array's post-call
value alongside the new worksheet. -/
def removeDuplicates (worksheet : Worksheet) (consideredColumns : List Int) :
    Worksheet × List Int :=
  let translated := consideredColumns.map
    (fun c => c - (worksheet.colOff : Int))
  let key : List String → List String := fun row =>
    translated.map (fun c => cellAt row ((worksheet.colOff : Int) + c))
  ({ worksheet with
     rows :=
       match worksheet.rows with
       | [] => []
       | header :: dataRows => header :: dedupByAux key [] dataRows },
   translated)

/-- Embedding of `setRowHeight` (src lines 167-174): throws a `RangeError` if
`rowHeight <= 0`; otherwise sets the height of every row of the used range to
`rowHeight` (`getUsedRange().getFormat().setRowHeight`). -/
def setRowHeight (worksheet : Worksheet) (rowHeight : Rat) :
    Except String Worksheet :=
  if rowHeight ≤ 0 then
    .error ("rowHeight = " ++ toString rowHeight ++
      " cannot be less than or equal to 0.")
  else
    .ok { worksheet with
          rowHeights := fun r =>
            if worksheet.rowOff ≤ r ∧
                r < worksheet.rowOff + worksheet.rows.length then rowHeight
            else worksheet.rowHeights r }

/-- Host model of autofit: the width that fits a column's content, namely the
widest visible cell content in that column (glossary: "automatic column-width
adjustment to the widest visible content in that column").  Reads only the
values and row visibility, never the current widths. -/
def fitWidth (worksheet : Worksheet) (c : Nat) : Nat :=
  (worksheet.rows.enum.filterMap (fun p =>
    if worksheet.visible (worksheet.rowOff + p.1) then
      some (p.2.getD c "").length
    else none)).foldr max 0

/-- Embedding of `autofitColumn` (src lines 194-198): builds the single-column range string
`` `${column}:${column}` `` and asks the host to autofit the columns of that
range. -/
def autofitColumn (worksheet : Worksheet) (column : String) :
    Except String Worksheet :=
  let columnRange : String := column ++ ":" ++ column
  match parseColRange columnRange with
  | none => .error ("invalid range " ++ columnRange)
  | some (a, b) =>
    .ok { worksheet with
          colWidths := fun c =>
            if a ≤ c ∧ c ≤ b then fitWidth worksheet c
            else worksheet.colWidths c }

/-- Embedding of `autofitColumns` (src lines 181-187): applies `autofitColumn` to each
listed column in order. -/
def autofitColumns (worksheet : Worksheet) (columnsTobeAutofitted : List String) :
    Except String Worksheet :=
  match columnsTobeAutofitted with
  | [] => .ok worksheet
  | c :: rest =>
    match autofitColumn worksheet c with
    | .error e => .error e
    | .ok worksheet' => autofitColumns worksheet' rest

/-- Sequencing of the script's steps against the single worksheet: each step
either returns the mutated worksheet or throws, and a thrown error aborts the
remaining steps, leaving the state produced by the completed steps in place
(the script has no rollback). -/
def runSteps : List (Worksheet → Except String Worksheet) → Worksheet →
    Worksheet × Option String
  | [], s => (s, none)
  | f :: fs, s =>
    match f s with
    | .ok s' => runSteps fs s'
    | .error e => (s, some e)

/-- Constant `RISK_COLUMN` (src line 41): column D. -/
def RISK_COLUMN : Int := 3

/-- Constant `DUPLICATES_CONSIDERED_COLUMNS` (src line 46): columns D through O. -/
def DUPLICATES_CONSIDERED_COLUMNS : List Int :=
  [3, 4, 5, 6, 7, 8, 9, 10, 11, 12, 13, 14]

/-- Constant `UNIFIED_ROW_HEIGHT` (src line 50). -/
def UNIFIED_ROW_HEIGHT : Rat := 14

/-- Constant `RISK_LEVELS_TOBE_SHOWN` (src lines 54-59). -/
def RISK_LEVELS_TOBE_SHOWN : List String :=
  ["Critical", "High", "Low", "Medium"]

/-- Constant `COLUMNS_TOBE_AUTOFITTED` (src lines 63-73): device, host, port, name and
solution columns. -/
def COLUMNS_TOBE_AUTOFITTED : List String := ["E", "F", "I", "J", "M"]

/-- Model of the JavaScript `String.prototype.endsWith` the script calls on
the workbook name: `suffixStr` is a suffix of `s`. -/
def strEndsWith (s suffixStr : String) : Bool :=
  suffixStr.toList.isSuffixOf s.toList

/-- The error thrown by `main` when the workbook is not a `.xlsx` file
(src lines 23-27). -/
def xlsxErr : String :=
  "You can only run this script in .xlsx files.\n" ++
  "Save this file as a .xlsx file first."

/-- The fixed step pipeline of `main` (src lines 29-74), in source order. -/
def mainSteps : List (Worksheet → Except String Worksheet) :=
  [fun s => hideColumns s "A:C",
   fun s => filterColumns s "D:O",
   fun s => sort s RISK_COLUMN,
   fun s => .ok (removeDuplicates s DUPLICATES_CONSIDERED_COLUMNS).1,
   fun s => setRowHeight s UNIFIED_ROW_HEIGHT,
   fun s => onlyShowFiltered s RISK_COLUMN RISK_LEVELS_TOBE_SHOWN,
   fun s => autofitColumns s COLUMNS_TOBE_AUTOFITTED]

/-- Embedding of `main` (src lines 12-81): checks that the workbook name ends in `.xlsx`
before any step runs, throwing the descriptive error otherwise, then runs the
seven-step pipeline on the active worksheet.  Returns the final worksheet
state and the thrown error, if any. -/
def main (workbookName : String) (selectedSheet : Worksheet) :
    Worksheet × Option String :=
  if strEndsWith workbookName ".xlsx" then runSteps mainSteps selectedSheet
  else (selectedSheet, some xlsxErr)

/-- Concrete example worksheet used by the witnesses: used range `D1:G3`
(column offset 3), a header row and two data rows whose risk column D holds
`"Info"` and `"Critical"`, with an autofilter already applied to column D. -/
def wsEx : Worksheet where
  colOff := 3
  rowOff := 0
  rows := [["", "", "", "Risk", "Dev"],
           ["", "", "", "Info", "b"],
           ["", "", "", "Critical", "a"]]
  rowHeights := fun _ => 10
  visible := fun _ => true
  hiddenCols := fun _ => false
  colWidths := fun _ => 8
  autoFilter := some 3

/-- C3: for every workbook name that does not end in `.xlsx`, `main` raises
the descriptive file-kind error and the worksheet is returned unmutated: no
step of the pipeline runs. -/
theorem main_requires_xlsx (workbookName : String) (ws : Worksheet)
    (h : strEndsWith workbookName ".xlsx" = false) :
    main workbookName ws = (ws, some xlsxErr) := by
  simp [main, h]

/-- Witness for C3 at the concrete name `"scan.csv"`. -/
theorem main_requires_xlsx_witness :
    strEndsWith "scan.csv" ".xlsx" = false ∧
      main "scan.csv" wsEx = (wsEx, some xlsxErr) :=
  ⟨by decide, main_requires_xlsx "scan.csv" wsEx (by decide)⟩

/-- C5: for every negative column index, `sort` raises the `RangeError` and,
run as a pipeline step, leaves the worksheet state completely unchanged. -/
theorem sort_negative_errors (ws : Worksheet) (columnIndex : Int)
    (h : columnIndex < 0) :
    runSteps [fun s => CsvToXlsxProcess.sort s columnIndex] ws =
      (ws, some ("columnIndex = " ++ toString columnIndex ++
        " cannot be less than 0.")) := by
  simp [runSteps, CsvToXlsxProcess.sort, h]

/-- Witness for C5 at index `-1`. -/
theorem sort_negative_errors_witness :
    (-1 : Int) < 0 ∧
      runSteps [fun s => CsvToXlsxProcess.sort s (-1)] wsEx =
        (wsEx, some ("columnIndex = " ++ toString (-1 : Int) ++
          " cannot be less than 0.")) :=
  ⟨by decide, sort_negative_errors wsEx (-1) (by decide)⟩

/-- C6: for every positive height, `setRowHeight` succeeds, keeps the rows,
and sets the height of every row of the used range to exactly that height;
for every height `≤ 0` it raises the `RangeError` and, run as a pipeline
step, leaves the worksheet unchanged. -/
theorem setRowHeight_spec (ws : Worksheet) (rowHeight : Rat) :
    (0 < rowHeight →
      ∃ ws', setRowHeight ws rowHeight = .ok ws' ∧
        ws'.rows = ws.rows ∧
        ∀ r, ws.rowOff ≤ r → r < ws.rowOff + ws.rows.length →
          ws'.rowHeights r = rowHeight) ∧
    (rowHeight ≤ 0 →
      runSteps [fun s => setRowHeight s rowHeight] ws =
        (ws, some ("rowHeight = " ++ toString rowHeight ++
          " cannot be less than or equal to 0."))) := by
  constructor
  · intro hp
    refine ⟨{ ws with
        rowHeights := fun r =>
          if ws.rowOff ≤ r ∧ r < ws.rowOff + ws.rows.length then rowHeight
          else ws.rowHeights r }, ?_, rfl, ?_⟩
    · simp [setRowHeight, not_le.mpr hp]
    · intro r h1 h2
      simp [h1, h2]
  · intro hn
    simp [runSteps, setRowHeight, hn]

/-- Witness for C6 at heights `14` (positive branch) and `0` (error
branch). -/
theorem setRowHeight_spec_witness :
    ((0 : Rat) < 14 ∧
      ∃ ws', setRowHeight wsEx 14 = .ok ws' ∧
        ws'.rows = wsEx.rows ∧
        ∀ r, wsEx.rowOff ≤ r → r < wsEx.rowOff + wsEx.rows.length →
          ws'.rowHeights r = 14) ∧
    ((0 : Rat) ≤ 0 ∧
      runSteps [fun s => setRowHeight s 0] wsEx =
        (wsEx, some ("rowHeight = " ++ toString (0 : Rat) ++
          " cannot be less than or equal to 0."))) :=
  ⟨⟨by norm_num, (setRowHeight_spec wsEx 14).1 (by norm_num)⟩,
   ⟨le_refl 0, (setRowHeight_spec wsEx 0).2 (le_refl 0)⟩⟩

/-- C7: `removeDuplicates` rewrites the caller's `consideredColumns` array:
its post-call value has each element equal to the original minus the used
range's column offset (the in-place mutation of the source is modelled by
returning the array's final value). -/
theorem removeDuplicates_translates (ws : Worksheet)
    (consideredColumns : List Int) :
    (removeDuplicates ws consideredColumns).2 =
      consideredColumns.map (fun c => c - (ws.colOff : Int)) := rfl

/-- C8: aborting semantics of the step pipeline: when the steps before `f`
all succeed and `f` throws on the state they produced, running the whole
pipeline stops at `f`, returns that accumulated state (prior mutations kept,
no rollback), and the steps after `f` never execute. -/
theorem runSteps_abort (pre post : List (Worksheet → Except String Worksheet))
    (f : Worksheet → Except String Worksheet) (s : Worksheet) (e : String)
    (h1 : (runSteps pre s).2 = none)
    (h2 : f (runSteps pre s).1 = .error e) :
    runSteps (pre ++ f :: post) s = ((runSteps pre s).1, some e) := by
  induction pre generalizing s with
  | nil =>
    simp only [runSteps] at h2 ⊢
    simp [runSteps, h2]
  | cons g gs ih =>
    cases hg : g s with
    | ok s' =>
      have h1' : (runSteps gs s').2 = none := by
        simpa [runSteps, hg] using h1
      have h2' : f (runSteps gs s').1 = .error e := by
        simpa [runSteps, hg] using h2
      have := ih s' h1' h2'
      simpa [runSteps, hg] using this
    | error e' =>
      simp [runSteps, hg] at h1

/-- Witness for C8: a concrete pipeline of the script's own steps in which
the first two succeed and a negative-index `sort` then throws. -/
theorem runSteps_abort_witness :
    (runSteps [fun s => hideColumns s "A:C",
               fun s => filterColumns s "D:O"] wsEx).2 = none ∧
    (fun s => CsvToXlsxProcess.sort s (-1))
        (runSteps [fun s => hideColumns s "A:C",
                   fun s => filterColumns s "D:O"] wsEx).1 =
      .error ("columnIndex = " ++ toString (-1 : Int) ++
        " cannot be less than 0.") ∧
    runSteps
        ([fun s => hideColumns s "A:C", fun s => filterColumns s "D:O"] ++
          (fun s => CsvToXlsxProcess.sort s (-1)) ::
            [fun s => setRowHeight s 14]) wsEx =
      ((runSteps [fun s => hideColumns s "A:C",
                  fun s => filterColumns s "D:O"] wsEx).1,
        some ("columnIndex = " ++ toString (-1 : Int) ++
          " cannot be less than 0.")) :=
  ⟨rfl, rfl,
    runSteps_abort [fun s => hideColumns s "A:C",
        fun s => filterColumns s "D:O"]
      [fun s => setRowHeight s 14]
      (fun s => CsvToXlsxProcess.sort s (-1)) wsEx
      ("columnIndex = " ++ toString (-1 : Int) ++
        " cannot be less than 0.") rfl rfl⟩

/-- Deduplication returns a sublist of the input: surviving rows keep their
original relative order and nothing new appears. -/
theorem dedupByAux_sublist (key : List String → List String) :
    ∀ (l seen : List (List String)), List.Sublist (dedupByAux key seen l) l := by
  intro l
  induction l with
  | nil => intro seen; simp [dedupByAux]
  | cons r rs ih =>
    intro seen
    by_cases h : key r ∈ seen
    · rw [dedupByAux, if_pos h]
      exact (ih seen).cons r
    · rw [dedupByAux, if_neg h]
      exact (ih _).cons₂ r

/-- No surviving row's key is among the keys already seen. -/
theorem dedupByAux_not_seen (key : List String → List String) :
    ∀ (l seen : List (List String)) (x : List String),
      x ∈ dedupByAux key seen l → key x ∉ seen := by
  intro l
  induction l with
  | nil => intro seen x hx; simp [dedupByAux] at hx
  | cons r rs ih =>
    intro seen x hx
    by_cases h : key r ∈ seen
    · rw [dedupByAux, if_pos h] at hx
      exact ih seen x hx
    · rw [dedupByAux, if_neg h] at hx
      rw [List.mem_cons] at hx
      rcases hx with rfl | hx
      · exact h
      · intro hxs
        exact ih _ x hx (List.mem_cons_of_mem _ hxs)

/-- Any two distinct surviving rows differ on the deduplication key. -/
theorem dedupByAux_pairwise (key : List String → List String) :
    ∀ (l seen : List (List String)),
      (dedupByAux key seen l).Pairwise (fun a b => key a ≠ key b) := by
  intro l
  induction l with
  | nil => intro seen; simp [dedupByAux]
  | cons r rs ih =>
    intro seen
    by_cases h : key r ∈ seen
    · rw [dedupByAux, if_pos h]
      exact ih seen
    · rw [dedupByAux, if_neg h]
      refine List.Pairwise.cons ?_ (ih _)
      intro b hb heq
      exact dedupByAux_not_seen key rs (key r :: seen) b hb
        (heq ▸ List.mem_cons_self (key r) seen)

/-- C4: after duplicate removal the header row (`head?`) is unchanged, the
surviving rows are a sublist (`List.Sublist`) of the original rows (relative order preserved,
nothing added), and no two surviving data rows agree on every considered
column (at most one survivor per duplicate class, under exact value
equality at the original absolute column indices). -/
theorem removeDuplicates_spec (ws : Worksheet) (consideredColumns : List Int) :
    (removeDuplicates ws consideredColumns).1.rows.head? = ws.rows.head? ∧
    List.Sublist (removeDuplicates ws consideredColumns).1.rows ws.rows ∧
    (removeDuplicates ws consideredColumns).1.rows.tail.Pairwise
      (fun r₁ r₂ => consideredColumns.map (fun c => cellAt r₁ c) ≠
        consideredColumns.map (fun c => cellAt r₂ c)) := by
  have hkey : (fun row => (consideredColumns.map
        (fun c => c - (ws.colOff : Int))).map
        (fun c => cellAt row ((ws.colOff : Int) + c))) =
      fun row => consideredColumns.map (fun c => cellAt row c) := by
    funext row
    rw [List.map_map]
    congr 1
    funext c
    simp only [Function.comp]
    congr 1
    ring
  cases hrows : ws.rows with
  | nil =>
    refine ⟨?_, ?_, ?_⟩ <;> simp [removeDuplicates, hrows]
  | cons header dataRows =>
    refine ⟨?_, ?_, ?_⟩
    · simp [removeDuplicates, hrows]
    · simp only [removeDuplicates, hrows]
      exact (dedupByAux_sublist _ dataRows []).cons₂ header
    · simp only [removeDuplicates, hrows, List.tail_cons]
      rw [hkey]
      exact dedupByAux_pairwise _ dataRows []

instance (t : Int) : IsTotal (List String) (rowLe t) :=
  ⟨fun a b => le_total ((cellAt a t).toLower) ((cellAt b t).toLower)⟩

instance (t : Int) : IsTrans (List String) (rowLe t) :=
  ⟨fun _ _ _ h₁ h₂ => le_trans h₁ h₂⟩

/-- C2: for any worksheet whose autofilter is applied and any non-negative
absolute column index, `sort` succeeds, keeps the first (header) row in
place, and afterwards the values of that absolute column over the data rows
(the sort key is the range offset plus the range-relative index, which is the
given absolute index again) are non-decreasing under case-insensitive
comparison. -/
theorem sort_sorted (ws : Worksheet) (fcol : Nat) (columnIndex : Int)
    (hf : ws.autoFilter = some fcol) (hci : 0 ≤ columnIndex) :
    ∃ ws', CsvToXlsxProcess.sort ws columnIndex = .ok ws' ∧
      ws'.rows.head? = ws.rows.head? ∧
      (ws'.rows.tail.map
        (fun row => (cellAt row columnIndex).toLower)).Pairwise (· ≤ ·) := by
  have hneg : ¬columnIndex < 0 := not_lt.mpr hci
  have htarget : (fcol : Int) + (columnIndex - (fcol : Int)) = columnIndex := by
    ring
  cases hrows : ws.rows with
  | nil =>
    refine ⟨{ ws with rows := [] }, ?_, ?_, ?_⟩
    · simp [CsvToXlsxProcess.sort, hneg, hf, hrows]
    · simp [hrows]
    · simp
  | cons header dataRows =>
    refine ⟨{ ws with
        rows := header ::
          List.insertionSort (rowLe columnIndex) dataRows }, ?_, ?_, ?_⟩
    · simp [CsvToXlsxProcess.sort, hneg, hf, hrows, htarget]
    · simp [hrows]
    · have hs : (List.insertionSort (rowLe columnIndex) dataRows).Sorted
          (rowLe columnIndex) :=
        List.sorted_insertionSort (rowLe columnIndex) dataRows
      simp only [List.tail_cons]
      exact List.pairwise_map.mpr hs

/-- Witness for C2 on the example worksheet, sorting by absolute column 3. -/
theorem sort_sorted_witness :
    wsEx.autoFilter = some 3 ∧ (0 : Int) ≤ 3 ∧
      (∃ ws', CsvToXlsxProcess.sort wsEx 3 = .ok ws' ∧
        ws'.rows.head? = wsEx.rows.head? ∧
        (ws'.rows.tail.map
          (fun row => (cellAt row 3).toLower)).Pairwise (· ≤ ·)) :=
  ⟨rfl, by decide, sort_sorted wsEx 3 3 rfl (by decide)⟩

/-- C1: with an autofilter applied at column offset `fcol`, the
category-restriction step yields the same state for any two column-index
arguments (the argument is ignored: the filter targets relative column 0 of
the filter range, i.e. absolute column `fcol`), keeps every row present, and
makes a data row visible exactly when its value in column `fcol` is in the
allow-list. -/
theorem onlyShowFiltered_spec (ws : Worksheet) (fcol : Nat)
    (columnIndex columnIndex' : Int) (valuesTobeShown : List String)
    (hf : ws.autoFilter = some fcol) :
    ∃ ws', onlyShowFiltered ws columnIndex valuesTobeShown = .ok ws' ∧
      onlyShowFiltered ws columnIndex' valuesTobeShown = .ok ws' ∧
      ws'.rows = ws.rows ∧
      ∀ i, 1 ≤ i → i < ws.rows.length →
        (ws'.visible (ws.rowOff + i) = true ↔
          cellAt (ws.rows.getD i []) (fcol : Int) ∈ valuesTobeShown) := by
  refine ⟨{ ws with
      visible := fun r =>
        if ws.rowOff + 1 ≤ r ∧ r < ws.rowOff + ws.rows.length then
          decide (cellAt (ws.rows.getD (r - ws.rowOff) []) (fcol : Int) ∈
            valuesTobeShown)
        else ws.visible r }, ?_, ?_, rfl, ?_⟩
  · simp [onlyShowFiltered, hf]
  · simp [onlyShowFiltered, hf]
  · intro i h1 h2
    have hc : ws.rowOff + 1 ≤ ws.rowOff + i ∧
        ws.rowOff + i < ws.rowOff + ws.rows.length := by omega
    show (if ws.rowOff + 1 ≤ ws.rowOff + i ∧
        ws.rowOff + i < ws.rowOff + ws.rows.length then
          decide (cellAt (ws.rows.getD (ws.rowOff + i - ws.rowOff) [])
            (fcol : Int) ∈ valuesTobeShown)
        else ws.visible (ws.rowOff + i)) = true ↔ _
    rw [if_pos hc, Nat.add_sub_cancel_left]
    exact decide_eq_true_iff

/-- Witness for C1 on the example worksheet: the `"Info"` row is hidden and
the `"Critical"` row shown, with column-index arguments 3 and 5 giving the
same state. -/
theorem onlyShowFiltered_spec_witness :
    wsEx.autoFilter = some 3 ∧
      (∃ ws', onlyShowFiltered wsEx 3 RISK_LEVELS_TOBE_SHOWN = .ok ws' ∧
        onlyShowFiltered wsEx 5 RISK_LEVELS_TOBE_SHOWN = .ok ws' ∧
        ws'.rows = wsEx.rows ∧
        ∀ i, 1 ≤ i → i < wsEx.rows.length →
          (ws'.visible (wsEx.rowOff + i) = true ↔
            cellAt (wsEx.rows.getD i []) ((3 : Nat) : Int) ∈
              RISK_LEVELS_TOBE_SHOWN)) :=
  ⟨rfl, onlyShowFiltered_spec wsEx 3 3 5 RISK_LEVELS_TOBE_SHOWN rfl⟩

/-- Whether absolute column `x` lies in the single-column range of some
identifier in `l`, as `autofitColumn` interprets identifiers. -/
def inFitRanges (l : List String) (x : Nat) : Bool :=
  l.any fun c =>
    match parseColRange (c ++ ":" ++ c) with
    | some (a, b) => decide (a ≤ x ∧ x ≤ b)
    | none => false

/-- Autofit reads only the contents and row visibility, so a column-width
update does not change any fitted width. -/
theorem fitWidth_setWidths (ws : Worksheet) (g : Nat → Nat) (c : Nat) :
    fitWidth { ws with colWidths := g } c = fitWidth ws c := rfl

/-- Unfolding of `inFitRanges` over a cons cell. -/
theorem inFitRanges_cons (c : String) (cs : List String) (x : Nat) :
    inFitRanges (c :: cs) x =
      ((match parseColRange (c ++ ":" ++ c) with
        | some (a, b) => decide (a ≤ x ∧ x ≤ b)
        | none => false) || inFitRanges cs x) := by
  simp [inFitRanges, List.any_cons]

/-- Normal form of an all-valid autofit batch: the batch succeeds and the
final width of a column is its fitted width when some listed identifier
covers it, and the incoming width otherwise. -/
theorem autofitColumns_ok :
    ∀ (l : List String) (ws : Worksheet) (g : Nat → Nat),
      (∀ c ∈ l, (parseColRange (c ++ ":" ++ c)).isSome) →
      autofitColumns { ws with colWidths := g } l =
        .ok { ws with colWidths := fun x =>
          if inFitRanges l x then fitWidth ws x else g x }
  | [], ws, g, _ => by
    simp only [autofitColumns]
    rfl
  | c :: cs, ws, g, hv => by
    obtain ⟨⟨a, b⟩, hab⟩ := Option.isSome_iff_exists.mp
      (hv c (List.mem_cons_self c cs))
    have hv' : ∀ d ∈ cs, (parseColRange (d ++ ":" ++ d)).isSome :=
      fun d hd => hv d (List.mem_cons_of_mem c hd)
    have hrec := autofitColumns_ok cs ws
      (fun x => if a ≤ x ∧ x ≤ b then fitWidth ws x else g x) hv'
    simp only [autofitColumns, autofitColumn, hab]
    simp only [fitWidth_setWidths]
    rw [hrec]
    have hw : (fun x =>
        if inFitRanges cs x then fitWidth ws x
        else if a ≤ x ∧ x ≤ b then fitWidth ws x else g x) =
      fun x => if inFitRanges (c :: cs) x then fitWidth ws x else g x := by
      funext x
      rw [inFitRanges_cons, hab]
      by_cases h1 : inFitRanges cs x
      · simp [h1]
      · by_cases h2 : a ≤ x ∧ x ≤ b
        · simp [h1, h2]
        · simp [h1, h2]
    rw [hw]

/-- Membership in the listed ranges is invariant under permutation of the
identifier list. -/
theorem inFitRanges_perm (l₁ l₂ : List String) (h : l₁.Perm l₂) (x : Nat) :
    inFitRanges l₁ x = inFitRanges l₂ x := by
  cases hb : inFitRanges l₂ x with
  | true =>
    rw [inFitRanges, List.any_eq_true] at hb ⊢
    obtain ⟨c, hc, hcx⟩ := hb
    exact ⟨c, h.mem_iff.mpr hc, hcx⟩
  | false =>
    rw [inFitRanges, List.any_eq_false] at hb ⊢
    intro c hc
    exact hb c (h.mem_iff.mp hc)

/-- C9: the autofit batch is order-independent: for any two permutations of a
list of valid single-column identifiers, the resulting worksheet (and in
particular every column width) is the same. -/
theorem autofitColumns_perm (ws : Worksheet) (l₁ l₂ : List String)
    (hperm : l₁.Perm l₂)
    (hv : ∀ c ∈ l₁, (parseColRange (c ++ ":" ++ c)).isSome) :
    autofitColumns ws l₁ = autofitColumns ws l₂ := by
  have hv₂ : ∀ c ∈ l₂, (parseColRange (c ++ ":" ++ c)).isSome :=
    fun c hc => hv c (hperm.mem_iff.mpr hc)
  have e₁ := autofitColumns_ok l₁ ws ws.colWidths hv
  have e₂ := autofitColumns_ok l₂ ws ws.colWidths hv₂
  have hfun : (fun x => if inFitRanges l₁ x then fitWidth ws x
        else ws.colWidths x) =
      fun x => if inFitRanges l₂ x then fitWidth ws x else ws.colWidths x := by
    funext x
    rw [inFitRanges_perm l₁ l₂ hperm x]
  calc autofitColumns ws l₁
      = .ok { ws with colWidths := fun x =>
          if inFitRanges l₁ x then fitWidth ws x else ws.colWidths x } := e₁
    _ = .ok { ws with colWidths := fun x =>
          if inFitRanges l₂ x then fitWidth ws x else ws.colWidths x } := by
        rw [hfun]
    _ = autofitColumns ws l₂ := e₂.symm

/-- Witness for C9: swapping the device and host columns of the script's own
autofit list yields the same worksheet. -/
theorem autofitColumns_perm_witness :
    List.Perm ["E", "F"] ["F", "E"] ∧
      (∀ c ∈ ["E", "F"], (parseColRange (c ++ ":" ++ c)).isSome) ∧
      autofitColumns wsEx ["E", "F"] = autofitColumns wsEx ["F", "E"] :=
  ⟨List.Perm.swap "F" "E" [], by decide,
    autofitColumns_perm wsEx ["E", "F"] ["F", "E"]
      (List.Perm.swap "F" "E" []) (by decide)⟩

/-- Every step of the hard-coded pipeline of `main` succeeds on every
worksheet: the guards of `sort` (3 is non-negative) and `setRowHeight`
(14 is positive) cannot fire, the range strings parse, and the autofilter is
applied before the steps that need it. -/
theorem runSteps_mainSteps_snd (ws : Worksheet) :
    (runSteps mainSteps ws).2 = none := by
  have pAC : parseColRange "A:C" = some (0, 2) := by decide
  have pDO : parseColRange "D:O" = some (3, 14) := by decide
  have pE : parseColRange "E:E" = some (4, 4) := by decide
  have pF : parseColRange "F:F" = some (5, 5) := by decide
  have pI : parseColRange "I:I" = some (8, 8) := by decide
  have pJ : parseColRange "J:J" = some (9, 9) := by decide
  have pM : parseColRange "M:M" = some (12, 12) := by decide
  have hh : ¬UNIFIED_ROW_HEIGHT ≤ (0 : Rat) := by
    norm_num [UNIFIED_ROW_HEIGHT]
  have hs : ¬RISK_COLUMN < 0 := by
    norm_num [RISK_COLUMN]
  simp [mainSteps, runSteps, hideColumns, filterColumns, CsvToXlsxProcess.sort,
    removeDuplicates, setRowHeight, onlyShowFiltered, autofitColumns,
    autofitColumn, pAC, pDO, pE, pF, pI, pJ, pM, hh, hs]

/-- C10: with the hard-coded constants, the only error `main` can raise is
the `.xlsx` file-kind precondition error: the validation branches of `sort`
and `setRowHeight` are unreachable in the pipeline. -/
theorem main_only_xlsx_error (workbookName : String) (ws : Worksheet) :
    (main workbookName ws).2 =
      if strEndsWith workbookName ".xlsx" then none else some xlsxErr := by
  by_cases h : strEndsWith workbookName ".xlsx"
  · simp only [main, h, if_true]
    exact runSteps_mainSteps_snd ws
  · simp [main, h]

end CsvToXlsxProcess
